import Mathlib

/-!
# Verification of the chat-kit-agent SharePoint web part

Shallow embedding of `src/src/webparts/chatKitAgent/components/ChatKitAgent.tsx`
(the generation-counter variant) and of the two boolean-flag variants found in
`src/unnamed/part_001`, together with proofs about the script loader, the
credential provider, and the widget lifecycle manager.

Modelling conventions:
* JavaScript strings are Lean `String`s; JS string truthiness (`s` is truthy
  iff `s !== ""`) is made explicit.
* Optional / possibly-`undefined` values are `Option`s.
* The DOM host container (`hostRef.current`) is `Option (List Nat)`:
  `none` when the panel `<div>` is unmounted (ref is `null`), otherwise the
  list of child element ids.  Widget elements are identified by `Nat` ids.
* Asynchronous code is split at its `await` points; the environment's
  interference during a suspension is an explicit state-transforming
  function, and the network is an explicit outcome value.
-/

namespace ChatKit

/-- JS truthiness of an optional string: `undefined`, `null` and `""` are
falsy, every other string is truthy.  Models tests such as `!current` and
`cached?.clientSecret` in `ChatKitAgent.tsx`. -/
def jsTruthy (o : Option String) : Bool :=
  match o with
  | some s => s ≠ ""
  | none => false

/-- JS `a || b` on strings: `b` when `a` is empty, else `a`. -/
def jsOrStr (a b : String) : String :=
  if a = "" then b else a

/-- JS `o || b` where `o` is an optional string. -/
def jsOrOpt (o : Option String) (b : String) : String :=
  match o with
  | some s => jsOrStr s b
  | none => b

/-! ## Token endpoint response model (§6 of the spec) -/

/-- The `expires_at` field of the token response may be a number or a string
(`expires_at?: number | string`). -/
inductive ExpiresAt where
  | num (n : Int)
  | str (s : String)
deriving Repr, DecidableEq

/-- The parsed JSON body of a token-endpoint response, as declared by
`type TokenResponse` in `ChatKitAgent.tsx`.  `client_secret` and `error` are
optional because the JSON object may lack them. -/
structure TokenBody where
  client_secret : Option String
  expires_at : Option ExpiresAt
  error : Option String
deriving Repr, DecidableEq

deriving instance DecidableEq for Except

/-- An HTTP response as observed by `fetchClientSecret`:
* `ok`, `status`, `statusText` mirror the `Response` fields;
* `textResult` is the outcome of `res.text()` (`none` models a rejected
  read, which `safeReadText` swallows);
* `jsonResult` is the outcome of `res.json()` (`.error m` models a rejected
  parse; `.ok none` models the JSON value `null`, for which
  `data?.client_secret` is `undefined`). -/
structure HttpResp where
  ok : Bool
  status : Nat
  statusText : String
  textResult : Option String
  jsonResult : Except String (Option TokenBody)
deriving Repr, DecidableEq

/-- Outcome of the `fetch(...)` call itself: `.fail m` models a rejected
fetch (network failure), `.resp r` a delivered response. -/
inductive FetchOutcome where
  | fail (msg : String)
  | resp (r : HttpResp)
deriving Repr, DecidableEq

/-- `safeReadText` from `ChatKitAgent.tsx` lines 11-17: `await res.text()`,
returning `""` when the read throws. -/
def safeReadText (r : HttpResp) : String :=
  r.textResult.getD ""

/-- The outbound HTTP request built by `fetchClientSecret`
(`fetch(lambdaUrl, { method: "POST", ..., body: JSON.stringify({ workflow_id, user }) })`). -/
structure TokenRequest where
  url : String
  method : String
  workflow_id : String
  user : String
deriving Repr, DecidableEq

/-- The request issued by one invocation of `fetchClientSecret`. -/
def tokenRequest (lambdaUrl workflowId userId : String) : TokenRequest :=
  { url := lambdaUrl, method := "POST", workflow_id := workflowId, user := userId }

/-- `fetchClientSecret` from `ChatKitAgent.tsx` lines 65-80, as a function of
the network outcome for its single request:
* a rejected fetch propagates;
* `!res.ok` throws `Token endpoint failed (<status>): <text || statusText>`
  with `text` read best-effort by `safeReadText`;
* a rejected `res.json()` propagates;
* a falsy `data?.client_secret` throws `data?.error || "Failed to get client_secret"`;
* otherwise the parsed body is returned. -/
def fetchClientSecret (net : FetchOutcome) : Except String TokenBody :=
  match net with
  | .fail m => .error m
  | .resp r =>
    if r.ok = false then
      .error ("Token endpoint failed (" ++ toString r.status ++ "): "
        ++ jsOrStr (safeReadText r) r.statusText)
    else
      match r.jsonResult with
      | .error m => .error m
      | .ok none => .error "Failed to get client_secret"
      | .ok (some d) =>
        if jsTruthy d.client_secret = false then
          .error (jsOrOpt d.error "Failed to get client_secret")
        else
          .ok d

/-! ## Component state (generation-counter variant, `ChatKitAgent.tsx`) -/

/-- The cached credential held in `tokenRef.current`. -/
structure Credential where
  clientSecret : String
  expiresAt : Option ExpiresAt
deriving Repr, DecidableEq

/-- The mutable state of one `ChatKitAgent` component instance
(generation-counter variant):
`openP`/`busy`/`error` are the React state cells `open`/`busy`/`error`;
`host` is `hostRef.current` (children of the widget host `<div>`, `none`
when the panel is unmounted); `chatEl` is `chatElRef.current`;
`token` is `tokenRef.current`; `initSeq` is `initSeqRef.current`. -/
structure ChatState where
  openP : Bool
  busy : Bool
  error : String
  host : Option (List Nat)
  chatEl : Option Nat
  token : Option Credential
  initSeq : Nat
deriving Repr, DecidableEq

/-- The external configuration after the trimming performed at the top of the
component (`lambdaUrl`, `workflowId`, `userId`, `greeting`). -/
structure Config where
  lambdaUrl : String
  workflowId : String
  userId : String
  greeting : String
deriving Repr, DecidableEq

/-- The raw props (`IChatKitAgentProps`); each may be `undefined`. -/
structure Props where
  lambdaUrl : Option String
  workflowId : Option String
  userId : Option String
  greeting : Option String
deriving Repr, DecidableEq

/-- `(props.x || "").trim()`. -/
def trimmedProp (o : Option String) : String :=
  (o.getD "").trim

/-- The derived configuration of `ChatKitAgent.tsx` lines 83-86:
`lambdaUrl`/`workflowId`/`greeting` default to `""`, `userId` to
`"sharepoint-user"`, all trimmed. -/
def configOfProps (p : Props) : Config :=
  { lambdaUrl := trimmedProp p.lambdaUrl
    workflowId := trimmedProp p.workflowId
    userId := (jsOrOpt p.userId "sharepoint-user").trim
    greeting := trimmedProp p.greeting }

/-- `hasConfig = Boolean(lambdaUrl && workflowId)` (line 88). -/
def hasConfig (c : Config) : Bool :=
  c.lambdaUrl ≠ "" && c.workflowId ≠ ""

/-- `cleanupWidget` (lines 106-117): empty the host container if the ref is
live, null the widget handle, clear the busy flag.  `tokenRef` is not
touched. -/
def cleanupWidget (st : ChatState) : ChatState :=
  { st with host := st.host.map (fun _ => ([] : List Nat))
            chatEl := none
            busy := false }

/-- `toggle` (lines 198-207) together with the React mount/unmount of the
panel that follows the `open` flip: closing bumps the init sequence, runs
`cleanupWidget`, and unmounts the host `<div>` (ref becomes `null`); opening
mounts a fresh empty host `<div>`. -/
def applyToggle (st : ChatState) : ChatState :=
  if st.openP then
    let st1 := cleanupWidget { st with initSeq := st.initSeq + 1 }
    { st1 with openP := false, host := none }
  else
    { st with openP := true, host := some [] }

/-- `k` consecutive user toggles. -/
def togglesN : Nat → ChatState → ChatState
  | 0, st => st
  | k + 1, st => togglesN k (applyToggle st)

/-! ## The credential callback (generation-counter variant) -/

/-- `cached?.clientSecret`: the secret of the cached credential, if any. -/
def cachedSecret (o : Option Credential) : Option String :=
  o.map (fun c => c.clientSecret)

/-- Result of one invocation of the `getClientSecret` callback: the value
returned (or the rejection) to the widget, the component state afterwards,
and the list of HTTP requests issued. -/
structure CallbackResult where
  result : Except String String
  state : ChatState
  requests : List TokenRequest
deriving Repr, DecidableEq

/-- The `api.getClientSecret` callback registered by `ChatKitAgent.tsx`
lines 147-160, bound to the generation `seq` captured by the enclosing
mount attempt:
* if `current` is falsy and the cached credential has a truthy secret,
  return the cached secret with no network request;
* otherwise run `fetchClientSecret`; on success write the cache only when
  `initSeqRef.current === seq` still holds, and return the fresh secret;
  a fetch error is propagated to the widget and the state is untouched. -/
def getClientSecret (cfg : Config) (seq : Nat) (st : ChatState)
    (current : Option String) (net : FetchOutcome) : CallbackResult :=
  let cached := st.token
  if jsTruthy current = false && jsTruthy (cachedSecret cached) then
    { result := .ok ((cachedSecret cached).getD "")
      state := st
      requests := [] }
  else
    let req := tokenRequest cfg.lambdaUrl cfg.workflowId cfg.userId
    match fetchClientSecret net with
    | .error e => { result := .error e, state := st, requests := [req] }
    | .ok t =>
      let st2 :=
        if st.initSeq = seq then
          { st with token := some { clientSecret := t.client_secret.getD ""
                                    expiresAt := t.expires_at } }
        else st
      { result := .ok (t.client_secret.getD ""), state := st2, requests := [req] }

/-! ## The mount sequence (generation-counter variant)

`mountChatIfNeeded` (lines 119-192) suspends at exactly two points:
`await loadChatKitScriptOnce()` and `await whenDefined("openai-chatkit")`.
Everything before the first `await` is `mountPhase0`; everything after the
last completed `await` — the stale-generation check, widget construction,
attachment, and the `catch`/`finally` blocks — is `mountResume`, which runs
atomically on the single cooperative thread.  `mountRun` composes the two
around explicit environment interference `e1`, `e2` (state transformers
applied while each `await` is pending) and the outcomes `r1` (script load)
and `r2` (element definition wait). -/

/-- Which external steps a run of `mountChatIfNeeded` performed: whether the
script loader was invoked, whether the element-definition wait was invoked,
and whether a widget element was constructed (and so `setOptions` called and
a credential callback registered). -/
structure MountLog where
  loaderCalled : Bool
  whenDefinedCalled : Bool
  widgetCreated : Bool
deriving Repr, DecidableEq

/-- `existing && host.contains(existing)` (line 126). -/
def mountedIn (chatEl : Option Nat) (children : List Nat) : Bool :=
  match chatEl with
  | some el => children.contains el
  | none => false

/-- The synchronous prefix of `mountChatIfNeeded` (lines 120-133):
early-return when the panel is closed, the configuration is incomplete, the
host ref is dead, or the widget is already mounted in the host; otherwise
start a new attempt: bump `initSeqRef` to `seq := initSeq + 1`, set `busy`,
clear `error`.  Returns `none` on early return, else `some (seq, state)`. -/
def mountPhase0 (cfg : Config) (st : ChatState) : Option (Nat × ChatState) :=
  if st.openP = false || hasConfig cfg = false then none
  else
    match st.host with
    | none => none
    | some children =>
      if mountedIn st.chatEl children then none
      else
        some (st.initSeq + 1,
          { st with initSeq := st.initSeq + 1, busy := true, error := "" })

/-- The resumption of `mountChatIfNeeded` after its awaits (lines 138-191),
for an attempt of generation `seq`, on the state `st` current at resumption:
* a rejected await reaches the `catch` block, which mutates state
  (`setError`, `cleanupWidget`) only when the generation is still current,
  and the `finally` block clears `busy` under the same guard;
* a resolved await first re-checks the generation (line 140); when stale the
  attempt returns with no mutation at all; when current it constructs the
  widget element `elId`, calls `setOptions` (registering the callback),
  attaches via `host.replaceChildren(el)`, records the handle under the
  (synchronously redundant) generation re-check of line 171, and the
  `finally` block clears `busy`.
The returned `Bool` reports whether the widget element was constructed. -/
def mountResume (seq : Nat) (r : Except String Unit) (elId : Nat)
    (st : ChatState) : ChatState × Bool :=
  match r with
  | .error m =>
    if st.initSeq = seq then
      ({ cleanupWidget { st with error := m } with busy := false }, false)
    else (st, false)
  | .ok _ =>
    if st.initSeq = seq then
      let st1 := { st with host := st.host.map (fun _ => [elId]) }
      let st2 := if st1.initSeq = seq then { st1 with chatEl := some elId } else st1
      ({ st2 with busy := false }, true)
    else (st, false)

/-- One full run of `mountChatIfNeeded`: phase 0, then — if an attempt was
started — the script-load await (environment `e1`, outcome `r1`), then on
success the element-definition await (environment `e2`, outcome `r2`), then
the resumption.  Returns the final state and the log of external steps. -/
def mountRun (cfg : Config) (st0 : ChatState) (e1 e2 : ChatState → ChatState)
    (r1 r2 : Except String Unit) (elId : Nat) : ChatState × MountLog :=
  match mountPhase0 cfg st0 with
  | none => (st0, { loaderCalled := false, whenDefinedCalled := false, widgetCreated := false })
  | some (seq, st1) =>
    match r1 with
    | .error m =>
      let res := mountResume seq (.error m) elId (e1 st1)
      (res.1, { loaderCalled := true, whenDefinedCalled := false, widgetCreated := false })
    | .ok _ =>
      let res := mountResume seq r2 elId (e2 (e1 st1))
      (res.1, { loaderCalled := true, whenDefinedCalled := true, widgetCreated := res.2 })

/-! ## The script loader (`loadChatKitScriptOnce`, lines 19-43)

Page-global state: `window.__OPENAI_CHATKIT_SCRIPT_LOADING__` (declared in
the global typings file) holds the shared promise, identified here by a
`Nat` id.  The promise executor runs synchronously: it either attaches
listeners to a pre-existing `<script>` tag for the same `src`, or creates
and inserts a new one.  JS is single-threaded, so "concurrent" callers are
consecutive synchronous calls. -/

/-- Page-global loader state: the stored shared promise (if any), a fresh-id
source for promises, the number of chat-kit `<script>` elements the loader
has inserted into the document, and whether a `<script>` tag for the same
`src` already exists in the document (inserted by someone else). -/
structure LoaderState where
  loading : Option Nat
  nextPromiseId : Nat
  scriptInsertions : Nat
  existingScriptTag : Bool
deriving Repr, DecidableEq

/-- `loadChatKitScriptOnce`: return the stored shared promise if present;
otherwise create a promise (running its executor synchronously: attach to
an existing tag, or insert exactly one new `<script>`), store it in the
page global, and return it. -/
def loadChatKitScriptOnce (st : LoaderState) : Nat × LoaderState :=
  match st.loading with
  | some p => (p, st)
  | none =>
    let p := st.nextPromiseId
    let st1 := { st with loading := some p, nextPromiseId := p + 1 }
    if st.existingScriptTag then (p, st1)
    else (p, { st1 with scriptInsertions := st1.scriptInsertions + 1 })

/-- `n` consecutive calls to `loadChatKitScriptOnce`, collecting the
returned promise ids. -/
def runLoads : Nat → LoaderState → List Nat × LoaderState
  | 0, st => ([], st)
  | n + 1, st =>
    let r := loadChatKitScriptOnce st
    let rest := runLoads n r.2
    (r.1 :: rest.1, rest.2)

/-! ## `whenDefined` (lines 45-63)

The polling loop is modelled under an idealized scheduler where tick `k`
of the `setTimeout(tick, 50)` chain runs at elapsed time `50 * k`
milliseconds (the first `tick()` call is synchronous, at elapsed 0).
`dAt k` tells whether `customElements.get(tagName)` is registered at tick
`k`.  Each tick first checks registration, then the deadline
`Date.now() - start > timeoutMs`. -/

/-- The custom element tag waited for by the component. -/
def chatTag : String := "openai-chatkit"

/-- The fixed polling interval of `setTimeout(tick, 50)`, in ms. -/
def pollIntervalMs : Nat := 50

/-- The default `timeoutMs` argument of `whenDefined`. -/
def defaultTimeoutMs : Nat := 10000

/-- The timeout rejection message for the chat-kit tag. -/
def timeoutMsg : String := "Timed out waiting for " ++ chatTag

/-- The `tick` loop of `whenDefined`, started at tick index `k`:
resolve as soon as the element is registered, reject once the elapsed time
`50 * k` exceeds `timeoutMs`, otherwise schedule the next tick. -/
def whenDefinedLoop (dAt : Nat → Bool) (timeoutMs : Nat) (k : Nat) :
    Except String Unit :=
  if dAt k then .ok ()
  else if timeoutMs < 50 * k then .error timeoutMsg
  else whenDefinedLoop dAt timeoutMs (k + 1)
termination_by (timeoutMs + 50) - 50 * k
decreasing_by
  simp_wf
  omega

/-- `whenDefined("openai-chatkit", timeoutMs)`: resolve immediately (no
polling) when the element is already registered, else run the tick loop. -/
def whenDefined (dAt : Nat → Bool) (timeoutMs : Nat) : Except String Unit :=
  if dAt 0 then .ok () else whenDefinedLoop dAt timeoutMs 0

/-- `whenDefined` with its default 10000 ms timeout. -/
def whenDefinedDefault (dAt : Nat → Bool) : Except String Unit :=
  whenDefined dAt defaultTimeoutMs

/-! ## The boolean-flag variants (`src/unnamed/part_001`)

`part_001` holds two earlier variants of the same component.  Both replace
the generation counter by a boolean `initializingRef` (modelled as
`inFlight` below) and both expose a `resetConversation` action.  Shared
state shape: -/

/-- Component state of the `part_001` variants: as `ChatState` but with the
boolean `initializingRef` (`inFlight`) instead of the sequence counter. -/
structure StateA where
  openP : Bool
  busy : Bool
  error : String
  host : Option (List Nat)
  chatEl : Option Nat
  inFlight : Bool
  token : Option Credential
deriving Repr, DecidableEq

/-- `cleanupWidget` of the first `part_001` variant (lines 99-106): empty
the host, null the handle, clear the in-flight flag and the busy flag.
`tokenRef` is not touched. -/
def cleanupWidgetA (st : StateA) : StateA :=
  { st with host := st.host.map (fun _ => ([] : List Nat))
            chatEl := none
            inFlight := false
            busy := false }

/-- The synchronous prefix of the first `part_001` variant's
`mountChatIfNeeded` (lines 108-117): early-return when closed, unconfigured
or already in flight (`initializingRef.current`), or when the widget is
mounted in the live host; otherwise clean up, raise the in-flight flag, set
`busy`, clear `error`.  `none` = early return (no attempt started). -/
def mountGuardA (cfg : Config) (st : StateA) : Option StateA :=
  if st.openP = false || hasConfig cfg = false || st.inFlight then none
  else if (match st.chatEl, st.host with
           | some el, some children => children.contains el
           | _, _ => false) then none
  else
    let st1 := cleanupWidgetA st
    some { st1 with inFlight := true, busy := true, error := "" }

/-- `toggle` of the first `part_001` variant (lines 161-164): clean up when
currently open, then flip the flag (panel `<div>` mounts/unmounts with it). -/
def toggleA (st : StateA) : StateA :=
  let st1 := if st.openP then cleanupWidgetA st else st
  if st1.openP then { st1 with openP := false, host := none }
  else { st1 with openP := true, host := some [] }

/-- `resetConversation` of the first `part_001` variant (lines 166-170):
null `tokenRef`, clean up the widget; the trailing
`if (open) void mountChatIfNeeded()` starts an asynchronous remount and
performs no further synchronous state change. -/
def resetConversationA (st : StateA) : StateA :=
  cleanupWidgetA { st with token := none }

/-- The synchronous prefix of the second `part_001` variant's
`mountChatIfNeeded` (lines 285-296): with incomplete configuration it sets
the error text `"Configure Lambda URL and Workflow ID in the web part
settings."` and returns; it also early-returns when closed, when a handle
exists, or when in flight.  The `Bool` reports whether an attempt started. -/
def mountGateB (cfg : Config) (st : StateA) : StateA × Bool :=
  if hasConfig cfg = false then
    ({ st with error := "Configure Lambda URL and Workflow ID in the web part settings." },
      false)
  else if st.openP = false then (st, false)
  else if st.chatEl.isSome || st.inFlight then (st, false)
  else ({ st with inFlight := true, busy := true, error := "" }, true)

/-- Result of the `part_001` credential callbacks, which touch only the
token cache. -/
structure CallbackResultA where
  result : Except String String
  token : Option Credential
  requests : List TokenRequest
deriving Repr, DecidableEq

/-- The `api.getClientSecret` callback of the first `part_001` variant
(lines 128-133): `if (!current && tokenRef.current) return
tokenRef.current.clientSecret;` — the cache test is object truthiness of
the stored record — else fetch and write the cache unconditionally. -/
def getClientSecretA (cfg : Config) (token : Option Credential)
    (current : Option String) (net : FetchOutcome) : CallbackResultA :=
  if jsTruthy current = false && token.isSome then
    { result := .ok ((cachedSecret token).getD "")
      token := token
      requests := [] }
  else
    let req := tokenRequest cfg.lambdaUrl cfg.workflowId cfg.userId
    match fetchClientSecret net with
    | .error e => { result := .error e, token := token, requests := [req] }
    | .ok t =>
      { result := .ok (t.client_secret.getD "")
        token := some { clientSecret := t.client_secret.getD ""
                        expiresAt := t.expires_at }
        requests := [req] }

/-- The `api.getClientSecret` callback of the second `part_001` variant
(lines 308-315): `needFresh = Boolean(current)`; reuse the cache when
`!needFresh && tokenRef.current?.clientSecret`, else fetch and write the
cache unconditionally. -/
def getClientSecretB (cfg : Config) (token : Option Credential)
    (current : Option String) (net : FetchOutcome) : CallbackResultA :=
  if jsTruthy current = false && jsTruthy (cachedSecret token) then
    { result := .ok ((cachedSecret token).getD "")
      token := token
      requests := [] }
  else
    let req := tokenRequest cfg.lambdaUrl cfg.workflowId cfg.userId
    match fetchClientSecret net with
    | .error e => { result := .error e, token := token, requests := [req] }
    | .ok t =>
      { result := .ok (t.client_secret.getD "")
        token := some { clientSecret := t.client_secret.getD ""
                        expiresAt := t.expires_at }
        requests := [req] }

/-! ## Basic lemmas about toggling and the mount phases -/

theorem cleanupWidget_token (st : ChatState) : (cleanupWidget st).token = st.token := rfl

theorem cleanupWidget_error (st : ChatState) : (cleanupWidget st).error = st.error := rfl

theorem applyToggle_token (st : ChatState) : (applyToggle st).token = st.token := by
  by_cases h : st.openP = true
  · simp [applyToggle, cleanupWidget, h]
  · simp [applyToggle, h]

theorem applyToggle_error (st : ChatState) : (applyToggle st).error = st.error := by
  by_cases h : st.openP = true
  · simp [applyToggle, cleanupWidget, h]
  · simp [applyToggle, h]

theorem applyToggle_initSeq_le (st : ChatState) :
    st.initSeq ≤ (applyToggle st).initSeq := by
  by_cases h : st.openP = true
  · simp [applyToggle, cleanupWidget, h]
  · simp [applyToggle, h]

theorem applyToggle_initSeq_open (st : ChatState) (h : st.openP = true) :
    (applyToggle st).initSeq = st.initSeq + 1 := by
  simp [applyToggle, cleanupWidget, h]

theorem applyToggle_chatEl_open (st : ChatState) (h : st.openP = true) :
    (applyToggle st).chatEl = none := by
  simp [applyToggle, cleanupWidget, h]

theorem applyToggle_chatEl_none (st : ChatState) (h : st.chatEl = none) :
    (applyToggle st).chatEl = none := by
  by_cases ho : st.openP = true
  · simp [applyToggle, cleanupWidget, ho]
  · simp [applyToggle, ho, h]

theorem togglesN_token (k : Nat) (st : ChatState) :
    (togglesN k st).token = st.token := by
  induction k generalizing st with
  | zero => rfl
  | succ k ih => rw [togglesN, ih, applyToggle_token]

theorem togglesN_error (k : Nat) (st : ChatState) :
    (togglesN k st).error = st.error := by
  induction k generalizing st with
  | zero => rfl
  | succ k ih => rw [togglesN, ih, applyToggle_error]

theorem togglesN_initSeq_le (k : Nat) (st : ChatState) :
    st.initSeq ≤ (togglesN k st).initSeq := by
  induction k generalizing st with
  | zero => exact Nat.le_refl _
  | succ k ih =>
    rw [togglesN]
    exact Nat.le_trans (applyToggle_initSeq_le st) (ih (applyToggle st))

theorem togglesN_chatEl_none (k : Nat) (st : ChatState) (h : st.chatEl = none) :
    (togglesN k st).chatEl = none := by
  induction k generalizing st with
  | zero => exact h
  | succ k ih => rw [togglesN]; exact ih _ (applyToggle_chatEl_none st h)

/-- After at least one toggle from an open panel, the sequence counter has
strictly advanced and the widget handle is null. -/
theorem togglesN_pos_facts (k : Nat) (st : ChatState) (hk : 1 ≤ k)
    (ho : st.openP = true) :
    st.initSeq + 1 ≤ (togglesN k st).initSeq ∧ (togglesN k st).chatEl = none := by
  cases k with
  | zero => omega
  | succ j =>
    rw [togglesN]
    constructor
    · have h1 := applyToggle_initSeq_open st ho
      have h2 := togglesN_initSeq_le j (applyToggle st)
      omega
    · exact togglesN_chatEl_none j _ (applyToggle_chatEl_open st ho)

/-- Inversion of a successful `mountPhase0`. -/
theorem mountPhase0_inv {cfg : Config} {st st1 : ChatState} {seq : Nat}
    (h : mountPhase0 cfg st = some (seq, st1)) :
    st.openP = true ∧ hasConfig cfg = true ∧ seq = st.initSeq + 1 ∧
      st1 = { st with initSeq := st.initSeq + 1, busy := true, error := "" } := by
  cases hop : st.openP with
  | false => simp [mountPhase0, hop] at h
  | true =>
    cases hcf : hasConfig cfg with
    | false => simp [mountPhase0, hop, hcf] at h
    | true =>
      cases hh : st.host with
      | none => simp [mountPhase0, hop, hcf, hh] at h
      | some children =>
        by_cases hm : mountedIn st.chatEl children = true
        · simp [mountPhase0, hop, hcf, hh, hm] at h
        · simp [mountPhase0, hop, hcf, hh, hm] at h
          exact ⟨rfl, rfl, h.1.symm, h.2.symm⟩

/-- A resumption whose generation is stale performs no state mutation and
creates no widget. -/
theorem mountResume_stale {seq : Nat} {st : ChatState} (h : ¬ st.initSeq = seq)
    (r : Except String Unit) (elId : Nat) :
    mountResume seq r elId st = (st, false) := by
  cases r <;> simp [mountResume, h]

/-! ## Claim C1: generation-counter cancellation -/

/-- C1: if `mountChatIfNeeded` starts an initialization sequence capturing
generation `seq`, and the user toggles the panel at least once (the first
toggle from the open panel is the `close()` that bumps the counter) before
the script-load await resolves — with possibly further toggles during
either await — then the completion performs no state mutation at all: the
final state is exactly the environment-evolved state, no widget element is
created, the widget-handle reference is null, no error is recorded, and the
cached credential is exactly what it was when `open()` started. -/
theorem mount_generation_cancel (cfg : Config) (st0 st1 : ChatState)
    (seq k1 k2 elId : Nat) (r1 r2 : Except String Unit)
    (h0 : mountPhase0 cfg st0 = some (seq, st1)) (hk : 1 ≤ k1) :
    ∃ stE : ChatState,
      (stE = togglesN k1 st1 ∨ stE = togglesN k2 (togglesN k1 st1)) ∧
      (mountRun cfg st0 (togglesN k1) (togglesN k2) r1 r2 elId).1 = stE ∧
      (mountRun cfg st0 (togglesN k1) (togglesN k2) r1 r2 elId).2.widgetCreated = false ∧
      stE.chatEl = none ∧ stE.error = "" ∧ stE.token = st0.token := by
  obtain ⟨hop, hcf, hseq, hst1⟩ := mountPhase0_inv h0
  have hopen1 : st1.openP = true := by rw [hst1]; exact hop
  have hseq1 : st1.initSeq = seq := by rw [hst1]; exact hseq.symm
  have herr1 : st1.error = "" := by rw [hst1]
  have htok1 : st1.token = st0.token := by rw [hst1]
  have hA := togglesN_pos_facts k1 st1 hk hopen1
  have hAstale : ¬ (togglesN k1 st1).initSeq = seq := by omega
  have hBstale : ¬ (togglesN k2 (togglesN k1 st1)).initSeq = seq := by
    have := togglesN_initSeq_le k2 (togglesN k1 st1)
    omega
  cases r1 with
  | error m =>
    refine ⟨togglesN k1 st1, Or.inl rfl, ?_, ?_, hA.2, ?_, ?_⟩
    · simp [mountRun, h0, mountResume_stale hAstale]
    · simp [mountRun, h0, mountResume_stale hAstale]
    · rw [togglesN_error, herr1]
    · rw [togglesN_token, htok1]
  | ok u =>
    refine ⟨togglesN k2 (togglesN k1 st1), Or.inr rfl, ?_, ?_, ?_, ?_, ?_⟩
    · simp [mountRun, h0, mountResume_stale hBstale]
    · simp [mountRun, h0, mountResume_stale hBstale]
    · exact togglesN_chatEl_none k2 _ hA.2
    · rw [togglesN_error, togglesN_error, herr1]
    · rw [togglesN_token, togglesN_token, htok1]

/-- Demo configuration used by concrete runs. -/
def cfgW : Config :=
  { lambdaUrl := "u", workflowId := "w", userId := "id", greeting := "" }

/-- A freshly opened, idle component state (panel open, empty host, nothing
mounted, nothing cached). -/
def stIdle : ChatState :=
  { openP := true, busy := false, error := "", host := some []
    chatEl := none, token := none, initSeq := 0 }

/-- The state during the first pending mount attempt started from `stIdle`. -/
def stPending : ChatState :=
  { openP := true, busy := true, error := "", host := some []
    chatEl := none, token := none, initSeq := 1 }

/-- Witness for C1 at a concrete run: configuration `cfgW`, start `stIdle`,
one toggle (the close) during the script-load await. -/
theorem mount_generation_cancel_witness :
    ((mountRun cfgW stIdle (togglesN 1) (togglesN 0) (.ok ()) (.ok ()) 5).1).chatEl = none ∧
    (mountRun cfgW stIdle (togglesN 1) (togglesN 0) (.ok ()) (.ok ()) 5).2.widgetCreated = false := by
  obtain ⟨stE, _, h1, h2, h3, _, _⟩ :=
    mount_generation_cancel cfgW stIdle stPending 1 1 0 5 (.ok ()) (.ok ())
      (by decide) (by decide)
  exact ⟨by rw [h1]; exact h3, h2⟩

/-! ## Claim C8: at most one in-flight mount attempt -/

/-- Counterexample to C8 for the generation-counter variant
(`ChatKitAgent.tsx`): from the concrete idle state, `mountChatIfNeeded`
starts attempt 1 (state `stPending`, `busy = true`, attempt pending); a
second call to the mount routine in that pending state is **not** a no-op —
it starts a second attempt with generation 2. -/
theorem second_mount_call_counterexample :
    mountPhase0 cfgW stIdle = some (1, stPending) ∧
    stPending.busy = true ∧ stPending.chatEl = none ∧
    mountPhase0 cfgW stPending = some (2, { stPending with initSeq := 2 }) := by
  decide

/-- C8 (amended): in the `part_001` variants the in-flight flag makes a
second call to the mount routine a no-op, and a mounted widget makes it a
no-op; in the generation-counter variant (`ChatKitAgent.tsx`) a call with
the widget mounted in the live host is a no-op, while a second call during
a pending attempt starts a fresh attempt whose sequence bump supersedes
every earlier attempt: any resumption carrying an older generation performs
no state mutation, so at most one non-stale attempt exists at any time. -/
theorem single_current_attempt :
    (∀ cfg (st : StateA), st.inFlight = true → mountGuardA cfg st = none) ∧
    (∀ cfg (st : StateA), hasConfig cfg = true → st.chatEl.isSome = true →
      mountGateB cfg st = (st, false)) ∧
    (∀ cfg (st : ChatState) el children, st.chatEl = some el →
      st.host = some children → children.contains el = true →
      mountPhase0 cfg st = none) ∧
    (∀ cfg (st0 st1 : ChatState) seq, mountPhase0 cfg st0 = some (seq, st1) →
      seq = st0.initSeq + 1 ∧ st1.initSeq = seq ∧
      ∀ seqOld, seqOld ≤ st0.initSeq → ∀ r elId,
        mountResume seqOld r elId st1 = (st1, false)) := by
  refine ⟨?_, ?_, ?_, ?_⟩
  · intro cfg st h
    simp [mountGuardA, h]
  · intro cfg st hcf hel
    simp [mountGateB, hcf, hel]
  · intro cfg st el children hel hh hc
    by_cases hop : st.openP = true
    · by_cases hcf : hasConfig cfg = true
      · have hm : mountedIn st.chatEl children = true := by
          rw [hel]; simpa [mountedIn] using hc
        simp [mountPhase0, hop, hcf, hh, hm]
      · simp [mountPhase0, Bool.eq_false_iff.mpr hcf]
    · simp [mountPhase0, Bool.eq_false_iff.mpr hop]
  · intro cfg st0 st1 seq h
    obtain ⟨_, _, hseq, hst1⟩ := mountPhase0_inv h
    refine ⟨hseq, by rw [hst1, hseq], ?_⟩
    intro seqOld hle r elId
    have hne : ¬ st1.initSeq = seqOld := by
      rw [hst1]
      show ¬ st0.initSeq + 1 = seqOld
      omega
    exact mountResume_stale hne r elId

/-- Witness for C8 (amended) at concrete inputs. -/
theorem single_current_attempt_witness :
    mountGuardA cfgW
      { openP := true, busy := true, error := "", host := some []
        chatEl := none, inFlight := true, token := none } = none ∧
    mountPhase0 cfgW
      { stIdle with chatEl := some 3, host := some [3] } = none := by
  constructor
  · exact single_current_attempt.1 cfgW _ rfl
  · exact single_current_attempt.2.2.1 cfgW _ 3 [3] rfl rfl (by decide)

/-! ## Claim C2: credential callback caching -/

/-- A successful credential fetch always carries a non-empty
`client_secret` (line 78 rejects falsy ones), so every value ever written
to the cache has a non-empty secret. -/
theorem fetch_ok_secret_nonempty {net : FetchOutcome} {t : TokenBody}
    (h : fetchClientSecret net = .ok t) : ¬ t.client_secret.getD "" = "" := by
  cases net with
  | fail m => simp [fetchClientSecret] at h
  | resp r =>
    by_cases hok : r.ok = false
    · simp [fetchClientSecret, hok] at h
    · cases hj : r.jsonResult with
      | error m => simp [fetchClientSecret, hok, hj] at h
      | ok od =>
        cases od with
        | none => simp [fetchClientSecret, hok, hj] at h
        | some d =>
          by_cases hms : jsTruthy d.client_secret = false
          · simp [fetchClientSecret, hok, hj, hms] at h
          · simp [fetchClientSecret, hok, hj, hms] at h
            subst h
            cases hcs : d.client_secret with
            | none => rw [hcs] at hms; simp [jsTruthy] at hms
            | some s =>
              rw [hcs] at hms
              simp [jsTruthy] at hms
              simpa using hms

/-- C2: an invocation of the registered credential callback with no
current-secret argument and a cached credential (whose secret, as for every
reachable cache entry, is non-empty) returns the cached secret with no
network request and no state change; when no credential is cached, or a
(non-empty) current secret was passed, it issues exactly one POST to the
endpoint with the configured workflow and user, returns the freshly fetched
`client_secret`, and propagates any fetch error to the widget.  The final
conjunct shows that every successful fetch carries a non-empty secret, so
the non-emptiness assumption holds of every reachable cache entry (cache
writes only ever store successfully fetched secrets). -/
theorem credential_callback_caching (cfg : Config) (seq : Nat) (st : ChatState)
    (current : Option String) (net : FetchOutcome) :
    (∀ c : Credential, current = none → st.token = some c → ¬ c.clientSecret = "" →
      getClientSecret cfg seq st current net =
        { result := .ok c.clientSecret, state := st, requests := [] }) ∧
    ((st.token = none ∨ ∃ s, current = some s ∧ ¬ s = "") →
      (getClientSecret cfg seq st current net).requests =
        [tokenRequest cfg.lambdaUrl cfg.workflowId cfg.userId] ∧
      (∀ e, fetchClientSecret net = .error e →
        (getClientSecret cfg seq st current net).result = .error e) ∧
      (∀ t, fetchClientSecret net = .ok t →
        (getClientSecret cfg seq st current net).result =
          .ok (t.client_secret.getD ""))) ∧
    (∀ t, fetchClientSecret net = .ok t → ¬ t.client_secret.getD "" = "") := by
  refine ⟨?_, ?_, fun t ht => fetch_ok_secret_nonempty ht⟩
  · intro c hcur htok hsec
    subst hcur
    simp [getClientSecret, htok, cachedSecret, jsTruthy, hsec]
  · intro h
    have hcond : ¬ (jsTruthy current = false ∧ jsTruthy (cachedSecret st.token) = true) := by
      rcases h with h | ⟨s, hs, hne⟩
      · rintro ⟨-, h2⟩
        rw [h] at h2
        simp [cachedSecret, jsTruthy] at h2
      · rintro ⟨h1, -⟩
        rw [hs] at h1
        simp [jsTruthy, hne] at h1
    refine ⟨?_, ?_, ?_⟩
    · cases hf : fetchClientSecret net <;> simp [getClientSecret, hcond, hf]
    · intro e he
      simp [getClientSecret, hcond, he]
    · intro t ht
      simp [getClientSecret, hcond, ht]

/-- A ready component state holding a cached credential `sk_abc`. -/
def stCachedTok : ChatState :=
  { openP := true, busy := false, error := "", host := some [7]
    chatEl := some 7, token := some { clientSecret := "sk_abc", expiresAt := none }
    initSeq := 1 }

/-- Witness for C2: with `sk_abc` cached and no current secret passed, the
callback answers from the cache — even though the network is down. -/
theorem credential_callback_caching_witness :
    getClientSecret cfgW 1 stCachedTok none (.fail "net down") =
      { result := .ok "sk_abc", state := stCachedTok, requests := [] } :=
  (credential_callback_caching cfgW 1 stCachedTok none (.fail "net down")).1
    { clientSecret := "sk_abc", expiresAt := none } rfl rfl (by decide)

/-! ## Claim C10: a stale callback fetches but does not write the cache -/

/-- C10: when the credential callback performs a network fetch (its cache
test failed) and its bound generation is stale, it still issues the request
and resolves to the freshly fetched `client_secret`, but leaves the
component state — in particular the cached-credential slot — untouched;
a callback whose generation is still current writes the fetched credential
into the cache. -/
theorem stale_callback_frame (cfg : Config) (seq : Nat) (st : ChatState)
    (current : Option String) (net : FetchOutcome)
    (hmiss : ¬ (jsTruthy current = false ∧ jsTruthy (cachedSecret st.token) = true))
    (hstale : ¬ st.initSeq = seq) :
    (getClientSecret cfg seq st current net).state = st ∧
    (getClientSecret cfg seq st current net).requests =
      [tokenRequest cfg.lambdaUrl cfg.workflowId cfg.userId] ∧
    (∀ t, fetchClientSecret net = .ok t →
      (getClientSecret cfg seq st current net).result =
        .ok (t.client_secret.getD "")) ∧
    (∀ (st2 : ChatState) t, st2.initSeq = seq → st2.token = st.token →
      fetchClientSecret net = .ok t →
      (getClientSecret cfg seq st2 current net).state.token =
        some { clientSecret := t.client_secret.getD "", expiresAt := t.expires_at }) := by
  refine ⟨?_, ?_, ?_, ?_⟩
  · cases hf : fetchClientSecret net <;> simp [getClientSecret, hmiss, hf, hstale]
  · cases hf : fetchClientSecret net <;> simp [getClientSecret, hmiss, hf]
  · intro t ht
    simp [getClientSecret, hmiss, ht, hstale]
  · intro st2 t h2 htk ht
    have hmiss2 : ¬ (jsTruthy current = false ∧ jsTruthy (cachedSecret st2.token) = true) := by
      rw [htk]; exact hmiss
    simp [getClientSecret, hmiss2, ht, h2]

/-- A successful 200 response carrying `client_secret = "sk_new"`. -/
def respOk : HttpResp :=
  { ok := true, status := 200, statusText := "OK", textResult := some ""
    jsonResult := .ok (some { client_secret := some "sk_new", expires_at := none
                              error := none }) }

/-- Witness for C10: the callback bound to generation 2 runs against a state
whose counter is 1; it returns the fresh secret but the state is unchanged. -/
theorem stale_callback_frame_witness :
    (getClientSecret cfgW 2 stIdle none (.resp respOk)).state = stIdle ∧
    (getClientSecret cfgW 2 stIdle none (.resp respOk)).result = .ok "sk_new" := by
  obtain ⟨h1, _, h3, _⟩ :=
    stale_callback_frame cfgW 2 stIdle none (.resp respOk) (by decide) (by decide)
  exact ⟨h1, h3 { client_secret := some "sk_new", expires_at := none, error := none }
    (by decide)⟩

/-! ## Claim C5: token-endpoint error handling -/

/-- The concrete 500 response with body `"internal"`. -/
def resp500 : HttpResp :=
  { ok := false, status := 500, statusText := "Internal Server Error"
    textResult := some "internal", jsonResult := .ok none }

/-- Counterexample to C5 as stated: at the only call site of the credential
fetch — the widget's credential callback — a 500 response with body
`"internal"` does produce the error message containing `500` and
`internal`, but the component state is untouched: the panel error text
stays `""` (so the lifecycle does not transition to `Failed` and the panel
does not show the message) and the widget handle remains attached
(not null). -/
theorem token_error_counterexample :
    (getClientSecret cfgW 1 stCachedTok (some "sk_abc") (.resp resp500)).result =
      .error "Token endpoint failed (500): internal" ∧
    ¬ "Token endpoint failed (500): internal" = "" ∧
    (getClientSecret cfgW 1 stCachedTok (some "sk_abc") (.resp resp500)).state.error = "" ∧
    (getClientSecret cfgW 1 stCachedTok (some "sk_abc") (.resp resp500)).state.chatEl =
      some 7 := by
  decide

/-- C5 (amended): for every response with a non-success status, the
credential fetch fails with the message
`Token endpoint failed (<status>): <body>` built from the best-effort body
text — a failed body read is swallowed and treated as an empty body, in
which case (as for an empty body) the status text is used instead.  The
rejection is propagated to the widget by the credential callback, and the
component state (panel error text, widget handle, cached credential) is
unchanged: the `Failed` transition is reserved for failures of the mount
sequence itself. -/
theorem token_endpoint_error_spec (r : HttpResp) (cfg : Config) (seq : Nat)
    (st : ChatState) (current : Option String) (hok : r.ok = false) :
    fetchClientSecret (.resp r) =
      .error ("Token endpoint failed (" ++ toString r.status ++ "): "
        ++ jsOrStr (safeReadText r) r.statusText) ∧
    (r.textResult = none →
      fetchClientSecret (.resp r) =
        .error ("Token endpoint failed (" ++ toString r.status ++ "): "
          ++ r.statusText)) ∧
    ((getClientSecret cfg seq st current (.resp r)).result =
        .error ("Token endpoint failed (" ++ toString r.status ++ "): "
          ++ jsOrStr (safeReadText r) r.statusText) ∨
      (getClientSecret cfg seq st current (.resp r)).requests = []) ∧
    (getClientSecret cfg seq st current (.resp r)).state = st := by
  have hfe : fetchClientSecret (.resp r) =
      .error ("Token endpoint failed (" ++ toString r.status ++ "): "
        ++ jsOrStr (safeReadText r) r.statusText) := by
    simp [fetchClientSecret, hok]
  refine ⟨hfe, ?_, ?_, ?_⟩
  · intro hn
    rw [hfe]
    simp [safeReadText, hn, jsOrStr]
  · by_cases hcond : jsTruthy current = false ∧ jsTruthy (cachedSecret st.token) = true
    · right
      simp [getClientSecret, hcond]
    · left
      simp [getClientSecret, hcond, hfe]
  · by_cases hcond : jsTruthy current = false ∧ jsTruthy (cachedSecret st.token) = true
    · simp [getClientSecret, hcond]
    · simp [getClientSecret, hcond, hfe]

/-- Witness for C5 (amended) at the concrete 500/`"internal"` response. -/
theorem token_endpoint_error_spec_witness :
    fetchClientSecret (.resp resp500) =
      .error "Token endpoint failed (500): internal" ∧
    (getClientSecret cfgW 1 stIdle none (.resp resp500)).state = stIdle := by
  obtain ⟨h1, _, _, h4⟩ :=
    token_endpoint_error_spec resp500 cfgW 1 stIdle none rfl
  exact ⟨by rw [h1]; decide, h4⟩

/-! ## Claim C6: malformed success response -/

/-- A 200 response whose JSON body lacks `client_secret` but carries an
explicitly empty `error` field. -/
def respNoSecret : HttpResp :=
  { ok := true, status := 200, statusText := "OK", textResult := some ""
    jsonResult := .ok (some { client_secret := none, expires_at := none
                              error := some "" }) }

/-- Counterexample to C6 as stated: for this success response the body's
`error` field is present (`""`), yet the fetch fails with the generic fixed
message, not with the body's `error` field. -/
theorem invalid_token_counterexample :
    respNoSecret.jsonResult =
      .ok (some { client_secret := none, expires_at := none, error := some "" }) ∧
    fetchClientSecret (.resp respNoSecret) = .error "Failed to get client_secret" ∧
    ¬ fetchClientSecret (.resp respNoSecret) = .error "" := by
  decide

/-- C6 (amended): for every success-status response whose JSON body lacks a
`client_secret` field (or carries an empty one), the credential fetch fails
with the body's `error` field when that field is present **and non-empty**,
and with the generic fixed message `Failed to get client_secret` when the
`error` field is absent or empty; the cached credential is not updated by
the callback on any such response. -/
theorem invalid_token_response_spec (r : HttpResp) (d : TokenBody) (cfg : Config)
    (seq : Nat) (st : ChatState) (current : Option String)
    (hok : r.ok = true) (hj : r.jsonResult = .ok (some d))
    (hmissing : jsTruthy d.client_secret = false) :
    fetchClientSecret (.resp r) =
      .error (jsOrOpt d.error "Failed to get client_secret") ∧
    (∀ e, d.error = some e → ¬ e = "" → fetchClientSecret (.resp r) = .error e) ∧
    ((d.error = none ∨ d.error = some "") →
      fetchClientSecret (.resp r) = .error "Failed to get client_secret") ∧
    (getClientSecret cfg seq st current (.resp r)).state.token = st.token := by
  have hfe : fetchClientSecret (.resp r) =
      .error (jsOrOpt d.error "Failed to get client_secret") := by
    simp [fetchClientSecret, hok, hj, hmissing]
  refine ⟨hfe, ?_, ?_, ?_⟩
  · intro e he hne
    rw [hfe, he]
    simp [jsOrOpt, jsOrStr, hne]
  · intro h
    rw [hfe]
    rcases h with h | h <;> simp [h, jsOrOpt, jsOrStr]
  · by_cases hcond : jsTruthy current = false ∧ jsTruthy (cachedSecret st.token) = true
    · simp [getClientSecret, hcond]
    · simp [getClientSecret, hcond, hfe]

/-- A 200 response body that lacks `client_secret` and carries
`error = "oops"`. -/
def bodyOops : TokenBody :=
  { client_secret := none, expires_at := none, error := some "oops" }

/-- The 200 response wrapping `bodyOops`. -/
def respOops : HttpResp :=
  { ok := true, status := 200, statusText := "OK", textResult := some ""
    jsonResult := .ok (some bodyOops) }

/-- Witness for C6 (amended): a body with `error = "oops"` and no
`client_secret` fails with `"oops"`; the cache is untouched. -/
theorem invalid_token_response_spec_witness :
    fetchClientSecret (.resp respOops) = .error "oops" ∧
    (getClientSecret cfgW 1 stIdle none (.resp respOops)).state.token = none := by
  obtain ⟨_, h2, _, h4⟩ :=
    invalid_token_response_spec respOops bodyOops cfgW 1 stIdle none rfl rfl (by decide)
  exact ⟨h2 "oops" rfl (by decide), h4⟩

/-! ## Claim C7: when the credential cache is cleared -/

/-- Counterexample to C7 as stated: from a ready state with `sk_abc` cached,
the close toggle — which tears the widget down (`cleanupWidget`, handle
nulled) — leaves the cached credential in place; `cleanupWidget` itself
also leaves it in place.  Widget teardown does **not** clear the cache. -/
theorem teardown_keeps_cache_counterexample :
    (applyToggle stCachedTok).openP = false ∧
    (applyToggle stCachedTok).chatEl = none ∧
    (applyToggle stCachedTok).token =
      some { clientSecret := "sk_abc", expiresAt := none } ∧
    (cleanupWidget stCachedTok).token =
      some { clientSecret := "sk_abc", expiresAt := none } := by
  decide

/-- C7 (amended): the cached credential is cleared by the explicit
`resetConversation` and by no other lifecycle operation — in particular
widget teardown (`cleanupWidget`, the close toggle) and the mount sequence
leave it in place, in both the `part_001` variants and the
generation-counter variant.  After a reset, a credential-callback
invocation with no current-secret argument issues exactly one fresh network
fetch, even when a credential had been cached before the reset. -/
theorem credential_cache_lifecycle :
    (∀ st : StateA, (resetConversationA st).token = none) ∧
    (∀ st : StateA, (cleanupWidgetA st).token = st.token) ∧
    (∀ st : StateA, (toggleA st).token = st.token) ∧
    (∀ cfg (st st1 : StateA), mountGuardA cfg st = some st1 → st1.token = st.token) ∧
    (∀ cfg (st : StateA), (mountGateB cfg st).1.token = st.token) ∧
    (∀ st : ChatState, (cleanupWidget st).token = st.token) ∧
    (∀ st : ChatState, (applyToggle st).token = st.token) ∧
    (∀ seq r elId (st : ChatState), ((mountResume seq r elId st).1).token = st.token) ∧
    (∀ cfg (st : StateA) current net, jsTruthy current = false →
      (getClientSecretA cfg (resetConversationA st).token current net).requests =
        [tokenRequest cfg.lambdaUrl cfg.workflowId cfg.userId]) ∧
    (∀ cfg seq (st : ChatState) current net, st.token = none →
      (getClientSecret cfg seq st current net).requests =
        [tokenRequest cfg.lambdaUrl cfg.workflowId cfg.userId]) := by
  refine ⟨fun st => rfl, fun st => rfl, ?_, ?_, ?_, fun st => rfl, ?_, ?_, ?_, ?_⟩
  · intro st
    unfold toggleA cleanupWidgetA
    by_cases h : st.openP = true <;> simp [h]
  · intro cfg st st1 h
    unfold mountGuardA cleanupWidgetA at h
    split at h
    · cases h
    · split at h
      · cases h
      · cases h; rfl
  · intro cfg st
    unfold mountGateB
    split
    · rfl
    · split
      · rfl
      · split
        · rfl
        · rfl
  · exact applyToggle_token
  · intro seq r elId st
    cases r <;> simp [mountResume, cleanupWidget] <;> split <;> rfl
  · intro cfg st current net hcur
    have : (resetConversationA st).token = none := rfl
    rw [this]
    cases hf : fetchClientSecret net <;>
      simp [getClientSecretA, hf, Option.isSome]
  · intro cfg seq st current net htok
    have hcond : ¬ (jsTruthy current = false ∧ jsTruthy (cachedSecret st.token) = true) := by
      rintro ⟨-, h2⟩
      rw [htok] at h2
      simp [cachedSecret, jsTruthy] at h2
    cases hf : fetchClientSecret net <;> simp [getClientSecret, hcond, hf]

/-- Witness for C7 (amended): reset a concrete cached state, then invoke the
variant-A callback with no current secret: the cache is gone and exactly one
request goes out. -/
theorem credential_cache_lifecycle_witness :
    (resetConversationA
      { openP := true, busy := false, error := "", host := some [7]
        chatEl := some 7, inFlight := false
        token := some { clientSecret := "sk_abc", expiresAt := none } }).token = none ∧
    (getClientSecretA cfgW
      (resetConversationA
        { openP := true, busy := false, error := "", host := some [7]
          chatEl := some 7, inFlight := false
          token := some { clientSecret := "sk_abc", expiresAt := none } }).token
      none (.resp respOk)).requests = [tokenRequest "u" "w" "id"] :=
  ⟨credential_cache_lifecycle.1 _,
    credential_cache_lifecycle.2.2.2.2.2.2.2.2.1 cfgW _ none (.resp respOk) rfl⟩

/-! ## Claim C4: configuration gating -/

/-- C4: with an endpoint URL or workflow id that is empty after trimming,
the mount routine of the generation-counter variant returns before calling
the script loader, before any element-definition wait, and before creating
any widget (so no credential callback is ever registered and the credential
provider is never reachable), leaving the state untouched — the widget is
never mounted; the second `part_001` variant's mount routine additionally
sets the "configuration required" message and starts no attempt. -/
theorem config_gating (cfg : Config) (st : ChatState) (stB : StateA)
    (e1 e2 : ChatState → ChatState) (r1 r2 : Except String Unit) (elId : Nat)
    (h : hasConfig cfg = false) :
    (hasConfig cfg = false ↔ cfg.lambdaUrl = "" ∨ cfg.workflowId = "") ∧
    mountRun cfg st e1 e2 r1 r2 elId =
      (st, { loaderCalled := false, whenDefinedCalled := false, widgetCreated := false }) ∧
    (st.chatEl = none → ((mountRun cfg st e1 e2 r1 r2 elId).1).chatEl = none) ∧
    mountGateB cfg stB =
      ({ stB with
          error := "Configure Lambda URL and Workflow ID in the web part settings." },
        false) := by
  have h0 : mountPhase0 cfg st = none := by
    simp [mountPhase0, h]
  refine ⟨?_, ?_, ?_, ?_⟩
  · simp [hasConfig]
    tauto
  · simp [mountRun, h0]
  · intro hel
    simp [mountRun, h0, hel]
  · simp [mountGateB, h]

/-- The configuration with an empty endpoint URL (as produced by
`configOfProps` from a whitespace-only `lambdaUrl` prop). -/
def cfgBlankUrl : Config :=
  { lambdaUrl := "", workflowId := "w", userId := "id", greeting := "" }

/-- A closed `part_001` state with nothing mounted and nothing cached. -/
def stClosedA : StateA :=
  { openP := false, busy := false, error := "", host := none, chatEl := none
    inFlight := false, token := none }

/-- Witness for C4: with the empty endpoint URL, a full mount run touches
nothing and the second `part_001` variant shows the configuration message. -/
theorem config_gating_witness :
    mountRun cfgBlankUrl stIdle id id (.ok ()) (.ok ()) 5 =
      (stIdle, { loaderCalled := false, whenDefinedCalled := false
                 widgetCreated := false }) ∧
    (mountGateB cfgBlankUrl stClosedA).1.error =
      "Configure Lambda URL and Workflow ID in the web part settings." := by
  obtain ⟨_, h2, _, h4⟩ :=
    config_gating cfgBlankUrl stIdle stClosedA id id (.ok ()) (.ok ()) 5 (by decide)
  exact ⟨h2, by rw [h4]⟩

/-! ## Claim C3: the script loader is idempotent and memoized -/

theorem loadOnce_of_some {st : LoaderState} {p : Nat} (h : st.loading = some p) :
    loadChatKitScriptOnce st = (p, st) := by
  simp [loadChatKitScriptOnce, h]

theorem runLoads_of_some {st : LoaderState} {p : Nat} (h : st.loading = some p)
    (n : Nat) : runLoads n st = (List.replicate n p, st) := by
  induction n with
  | zero => rfl
  | succ n ih => simp [runLoads, loadOnce_of_some h, ih, List.replicate_succ]

/-- C3: for every sequence of `n ≥ 1` calls to `loadChatKitScriptOnce`
within one page lifetime, there is a single shared promise `p` such that
every call returns `p`, the page global holds `p` afterwards, at most one
script element is inserted over the whole sequence (exactly one when the
global was unset and no script tag for the source pre-existed), a global
that was already set is returned unchanged with no insertion at all, and
any number of further calls still return `p` without changing the state —
in particular a settled (also a rejected) shared promise is never replaced,
so all callers observe the settlement of the same promise and a rejection
is permanent for the page. -/
theorem script_loader_idempotent (st : LoaderState) (n : Nat) (h : 1 ≤ n) :
    ∃ p : Nat,
      (runLoads n st).1 = List.replicate n p ∧
      (runLoads n st).2.loading = some p ∧
      (runLoads n st).2.scriptInsertions ≤ st.scriptInsertions + 1 ∧
      (∀ q, st.loading = some q → p = q ∧ (runLoads n st).2 = st) ∧
      (st.loading = none → st.existingScriptTag = false →
        (runLoads n st).2.scriptInsertions = st.scriptInsertions + 1) ∧
      (∀ m, runLoads m (runLoads n st).2 =
        (List.replicate m p, (runLoads n st).2)) := by
  cases hl : st.loading with
  | some q =>
    refine ⟨q, ?_, ?_, ?_, ?_, ?_, ?_⟩
    · simp [runLoads_of_some hl n]
    · simp [runLoads_of_some hl n, hl]
    · simp [runLoads_of_some hl n]
    · intro q' hq'
      cases hq'
      exact ⟨rfl, by simp [runLoads_of_some hl n]⟩
    · intro h1 _
      cases h1
    · intro m
      simp [runLoads_of_some hl n, runLoads_of_some hl m]
  | none =>
    obtain ⟨n', rfl⟩ : ∃ n', n = n' + 1 := ⟨n - 1, by omega⟩
    cases he : st.existingScriptTag with
    | true =>
      have hfirst : loadChatKitScriptOnce st =
          (st.nextPromiseId,
            { st with loading := some st.nextPromiseId
                      nextPromiseId := st.nextPromiseId + 1 }) := by
        simp [loadChatKitScriptOnce, hl, he]
      have hrest :=
        @runLoads_of_some
          { st with loading := some st.nextPromiseId
                    nextPromiseId := st.nextPromiseId + 1 }
          st.nextPromiseId rfl
      refine ⟨st.nextPromiseId, ?_, ?_, ?_, ?_, ?_, ?_⟩
      · simp [runLoads, hfirst, hrest, List.replicate_succ]
      · simp [runLoads, hfirst, hrest]
      · simp [runLoads, hfirst, hrest]
      · intro q' hq'
        cases hq'
      · intro _ h2
        cases h2
      · intro m
        simp [runLoads, hfirst, hrest]
    | false =>
      have hfirst : loadChatKitScriptOnce st =
          (st.nextPromiseId,
            { st with loading := some st.nextPromiseId
                      nextPromiseId := st.nextPromiseId + 1
                      scriptInsertions := st.scriptInsertions + 1 }) := by
        simp [loadChatKitScriptOnce, hl, he]
      have hrest :=
        @runLoads_of_some
          { st with loading := some st.nextPromiseId
                    nextPromiseId := st.nextPromiseId + 1
                    scriptInsertions := st.scriptInsertions + 1 }
          st.nextPromiseId rfl
      refine ⟨st.nextPromiseId, ?_, ?_, ?_, ?_, ?_, ?_⟩
      · simp [runLoads, hfirst, hrest, List.replicate_succ]
      · simp [runLoads, hfirst, hrest]
      · simp [runLoads, hfirst, hrest]
      · intro q' hq'
        cases hq'
      · intro _ _
        simp [runLoads, hfirst, hrest]
      · intro m
        simp [runLoads, hfirst, hrest]

/-- Witness for C3: three calls from a fresh page state return the same
promise id 0 and insert exactly one script. -/
theorem script_loader_idempotent_witness :
    (runLoads 3 { loading := none, nextPromiseId := 0, scriptInsertions := 0
                  existingScriptTag := false }).1 = [0, 0, 0] ∧
    (runLoads 3 { loading := none, nextPromiseId := 0, scriptInsertions := 0
                  existingScriptTag := false }).2.scriptInsertions = 1 := by
  obtain ⟨p, h1, _, _, _, h5, _⟩ :=
    script_loader_idempotent
      { loading := none, nextPromiseId := 0, scriptInsertions := 0
        existingScriptTag := false } 3 (by decide)
  have hp : p = 0 := by
    have := h1
    simp [runLoads, loadChatKitScriptOnce] at this
    omega
  constructor
  · rw [h1, hp]
    rfl
  · exact h5 rfl rfl

/-! ## Claim C9: the element-definition wait -/

/-- One unfolding step of the tick loop. -/
theorem whenDefinedLoop_step (dAt : Nat → Bool) (t k : Nat) :
    whenDefinedLoop dAt t k =
      if dAt k then .ok ()
      else if t < 50 * k then .error timeoutMsg
      else whenDefinedLoop dAt t (k + 1) := by
  rw [whenDefinedLoop]

/-- The first tick index whose idealized elapsed time `50 * k` exceeds the
timeout. -/
def deadlineTick (timeoutMs : Nat) : Nat :=
  timeoutMs / 50 + 1

theorem deadlineTick_lt (t : Nat) : t < 50 * deadlineTick t := by
  have h1 := Nat.div_add_mod t 50
  have h2 : t % 50 < 50 := Nat.mod_lt _ (by omega)
  unfold deadlineTick
  omega

theorem deadlineTick_ge {t k : Nat} (h : k ≤ t / 50) : ¬ t < 50 * k := by
  have h1 := Nat.div_add_mod t 50
  omega

/-- The tick loop, entered at a tick not past the deadline tick, resolves
iff the element gets registered at some tick between the entry tick and the
deadline tick (inclusive). -/
theorem whenDefinedLoop_ok_iff (dAt : Nat → Bool) (t : Nat) :
    ∀ d k, deadlineTick t - k = d → k ≤ deadlineTick t →
      (whenDefinedLoop dAt t k = .ok () ↔
        ∃ j, k ≤ j ∧ j ≤ deadlineTick t ∧ dAt j = true) := by
  intro d
  induction d with
  | zero =>
    intro k hd hk
    have hkK : k = deadlineTick t := by omega
    subst hkK
    by_cases hD : dAt (deadlineTick t) = true
    · rw [whenDefinedLoop_step]
      simp [hD]
      exact ⟨deadlineTick t, Nat.le_refl _, Nat.le_refl _, hD⟩
    · rw [whenDefinedLoop_step]
      simp [hD, deadlineTick_lt t]
      intro j h1 h2
      have : j = deadlineTick t := by omega
      subst this
      simpa using hD
  | succ d ih =>
    intro k hd hk
    rw [whenDefinedLoop_step]
    by_cases hD : dAt k = true
    · simp [hD]
      exact ⟨k, Nat.le_refl _, hk, hD⟩
    · have hk2 : k ≤ t / 50 := by
        unfold deadlineTick at hd hk
        omega
      simp [hD, deadlineTick_ge hk2]
      rw [ih (k + 1) (by omega) (by unfold deadlineTick at hk hd ⊢ ; omega)]
      constructor
      · rintro ⟨j, h1, h2, h3⟩
        exact ⟨j, by omega, h2, h3⟩
      · rintro ⟨j, h1, h2, h3⟩
        refine ⟨j, ?_, h2, h3⟩
        rcases Nat.eq_or_lt_of_le h1 with h | h
        · subst h
          simp [h3] at hD
        · omega

/-- The tick loop returns either a resolution or the timeout rejection. -/
theorem whenDefinedLoop_total (dAt : Nat → Bool) (t : Nat) :
    ∀ d k, deadlineTick t - k = d →
      whenDefinedLoop dAt t k = .ok () ∨
      whenDefinedLoop dAt t k = .error timeoutMsg := by
  intro d
  induction d with
  | zero =>
    intro k hd
    rw [whenDefinedLoop_step]
    by_cases hD : dAt k = true
    · simp [hD]
    · by_cases hlt : t < 50 * k
      · simp [hD, hlt]
      · have : k ≤ t / 50 := by
          have h1 := Nat.div_add_mod t 50
          have h2 : t % 50 < 50 := Nat.mod_lt _ (by omega)
          omega
        unfold deadlineTick at hd
        omega
  | succ d ih =>
    intro k hd
    rw [whenDefinedLoop_step]
    by_cases hD : dAt k = true
    · simp [hD]
    · by_cases hlt : t < 50 * k
      · simp [hD, hlt]
      · simpa [hD, hlt] using ih (k + 1) (by omega)

/-- C9: `whenDefined` polls `customElements.get` on a fixed 50 ms tick
chain: it resolves immediately — without entering the polling loop — when
the element is already registered at call time; it always terminates with
either a resolution or the timeout rejection; under the idealized scheduler
(tick `k` at elapsed `50 * k` ms) it resolves iff the element becomes
registered at some tick up to the first tick past `timeoutMs`, and rejects
with `Timed out waiting for openai-chatkit` iff the element is registered
at none of those ticks — the first tick whose elapsed time exceeds
`timeoutMs` being `timeoutMs / 50 + 1`; the component calls it with the
default timeout of 10000 ms. -/
theorem whenDefined_poll_spec (dAt : Nat → Bool) (t : Nat) :
    whenDefinedDefault dAt = whenDefined dAt 10000 ∧
    (dAt 0 = true → whenDefined dAt t = .ok ()) ∧
    (whenDefined dAt t = .ok () ∨ whenDefined dAt t = .error timeoutMsg) ∧
    (whenDefined dAt t = .ok () ↔ ∃ k, k ≤ t / 50 + 1 ∧ dAt k = true) ∧
    (whenDefined dAt t = .error timeoutMsg ↔
      ∀ k, k ≤ t / 50 + 1 → dAt k = false) := by
  have hokiff : whenDefined dAt t = .ok () ↔ ∃ k, k ≤ t / 50 + 1 ∧ dAt k = true := by
    by_cases h0 : dAt 0 = true
    · simp only [whenDefined, h0, if_pos]
      constructor
      · intro _
        exact ⟨0, by omega, h0⟩
      · intro _
        trivial
    · simp only [whenDefined, h0, Bool.false_eq_true, if_false]
      rw [whenDefinedLoop_ok_iff dAt t (deadlineTick t) 0 (by omega) (by omega)]
      unfold deadlineTick
      constructor
      · rintro ⟨j, -, h2, h3⟩
        exact ⟨j, h2, h3⟩
      · rintro ⟨j, h2, h3⟩
        exact ⟨j, by omega, h2, h3⟩
  have htotal : whenDefined dAt t = .ok () ∨ whenDefined dAt t = .error timeoutMsg := by
    by_cases h0 : dAt 0 = true
    · left
      simp [whenDefined, h0]
    · simp only [whenDefined, h0, Bool.false_eq_true, if_false]
      exact whenDefinedLoop_total dAt t (deadlineTick t) 0 (by omega)
  refine ⟨rfl, ?_, htotal, hokiff, ?_⟩
  · intro h0
    simp [whenDefined, h0]
  · constructor
    · intro herr k hk
      by_cases hD : dAt k = true
      · have hok := hokiff.mpr ⟨k, hk, hD⟩
        rw [herr] at hok
        cases hok
      · simpa using hD
    · intro hall
      rcases htotal with hok | herr
      · obtain ⟨k, hk, hD⟩ := hokiff.mp hok
        rw [hall k hk] at hD
        cases hD
      · exact herr

/-- Witness for C9: an element registered at tick 1 resolves the wait; an
element never registered times out. -/
theorem whenDefined_poll_spec_witness :
    whenDefined (fun k => decide (1 ≤ k)) 100 = .ok () ∧
    whenDefined (fun _ => false) 100 = .error timeoutMsg := by
  obtain ⟨-, -, -, hok, -⟩ := whenDefined_poll_spec (fun k => decide (1 ≤ k)) 100
  obtain ⟨-, -, -, -, herr⟩ := whenDefined_poll_spec (fun _ => false) 100
  exact ⟨hok.mpr ⟨1, by omega, by decide⟩, herr.mpr (fun k _ => rfl)⟩

end ChatKit

